import Mathlib

/-!
Verification of the NFL Sportsradar API aggregation layer.

This development shallowly embeds the Python sources
`App/services/LLm_service.py`, `App/services/api_client.py` and
`App/services/nfl_service.py` and proves or refutes the frozen claims
about the context summarizer, the response cache, the fingerprint
function, the batch fetch orchestrator and the standings placeholder
policy.

JSON-decoded Python values are modelled by the inductive type `PyVal`.
Operations that can raise a Python exception are modelled in
`Except String`; a reducer's `try/except` block is modelled by running
its body in `Except String` and catching the error into the reducer's
stand-in value.  Recursive reducers take an explicit fuel argument
modelling Python's recursion limit: exhausting the fuel produces the
very stand-in that the reducer's own `except` clause would produce for
a `RecursionError`.
-/

/-- Model of a JSON-decoded Python value (the payload shapes the
services manipulate): `None`, booleans, integers, strings, lists and
insertion-ordered string-keyed dictionaries. -/
inductive PyVal where
  | none
  | bool (b : Bool)
  | int (n : Int)
  | str (s : String)
  | list (xs : List PyVal)
  | dict (kvs : List (String × PyVal))

/-- Python truthiness: `None`, `False`, `0`, `""`, `[]` and the empty
dict are falsy, everything else is truthy. -/
def pyTruthy : PyVal → Bool
  | .none => false
  | .bool b => b
  | .int n => n != 0
  | .str s => !s.isEmpty
  | .list xs => !xs.isEmpty
  | .dict kvs => !kvs.isEmpty

/-- Name of the Python type of a value, used in exception messages. -/
def pyTypeName : PyVal → String
  | .none => "NoneType"
  | .bool _ => "bool"
  | .int _ => "int"
  | .str _ => "str"
  | .list _ => "list"
  | .dict _ => "dict"

/-- Message of the `AttributeError` raised when calling a missing
method (such as `.get` on a non-dict). -/
def attrErr (tn attr : String) : String :=
  "\x27" ++ tn ++ "\x27 object has no attribute \x27" ++ attr ++ "\x27"

/-- Ordered-dictionary read with default, `kvs.get(k, d)` on a value
already known to be a dict. -/
def dGet (kvs : List (String × PyVal)) (k : String) (d : PyVal) : PyVal :=
  (kvs.lookup k).getD d

/-- Ordered-dictionary key-membership test on a value already known to
be a dict. -/
def dHas (kvs : List (String × PyVal)) (k : String) : Bool :=
  (kvs.lookup k).isSome

/-- Ordered-dictionary assignment `d[k] = v`: replaces the value in
place when the key exists (Python dicts keep the original position of
an overwritten key) and appends otherwise. -/
def dSet : List (String × PyVal) → String → PyVal → List (String × PyVal)
  | [], k, v => [(k, v)]
  | (k0, v0) :: rest, k, v =>
      if k0 = k then (k0, v) :: rest else (k0, v0) :: dSet rest k v

/-- Python `v.get(k, d)` on an arbitrary value: succeeds on dicts and
raises `AttributeError` otherwise. -/
def pyGetD (v : PyVal) (k : String) (d : PyVal) : Except String PyVal :=
  match v with
  | .dict kvs => .ok (dGet kvs k d)
  | _ => .error (attrErr (pyTypeName v) "get")

/-- Python `v.get(k)` (default `None`). -/
def pyGet (v : PyVal) (k : String) : Except String PyVal :=
  pyGetD v k .none

/-- Python `v.items()` on an arbitrary value. -/
def pyItems (v : PyVal) : Except String (List (String × PyVal)) :=
  match v with
  | .dict kvs => .ok kvs
  | _ => .error (attrErr (pyTypeName v) "items")

/-- Python substring test used by `k in v` when `v` is a string:
the empty needle is always contained. -/
def strHasSub (needle hay : String) : Bool :=
  needle.isEmpty || (hay.splitOn needle).length > 1

/-- Python `k in v` for a string `k`: key test on dicts, element test
on lists, substring test on strings, `TypeError` otherwise. -/
def pyIn (k : String) (v : PyVal) : Except String Bool :=
  match v with
  | .dict kvs => .ok (dHas kvs k)
  | .list xs => .ok (xs.any fun x => match x with | .str t => t == k | _ => false)
  | .str s => .ok (strHasSub k s)
  | _ => .error ("argument of type \x27" ++ pyTypeName v ++ "\x27 is not iterable")

/-- Python `v[k]` for a string key: dict lookup (raising `KeyError`
when absent), `TypeError` on every other type. -/
def pySub (v : PyVal) (k : String) : Except String PyVal :=
  match v with
  | .dict kvs =>
      match kvs.lookup k with
      | some w => .ok w
      | Option.none => .error ("KeyError: \x27" ++ k ++ "\x27")
  | .str _ => .error "string indices must be integers"
  | .list _ => .error "list indices must be integers or slices, not str"
  | _ => .error ("\x27" ++ pyTypeName v ++ "\x27 object is not subscriptable")

/-- Python slice `v[:n]`: prefix of a list or string, `TypeError` on
other types (dicts are not subscriptable by slices). -/
def pySlice (v : PyVal) (n : Nat) : Except String PyVal :=
  match v with
  | .list xs => .ok (.list (xs.take n))
  | .str s => .ok (.str (s.take n))
  | _ => .error ("\x27" ++ pyTypeName v ++ "\x27 object is not subscriptable")

/-- Python `len(v)` on sized values, `TypeError` otherwise. -/
def pyLen (v : PyVal) : Except String Nat :=
  match v with
  | .list xs => .ok xs.length
  | .dict kvs => .ok kvs.length
  | .str s => .ok s.length
  | _ => .error ("object of type \x27" ++ pyTypeName v ++ "\x27 has no len()")

/-- Constructor tests mirroring `isinstance(v, dict)`. -/
def isDict : PyVal → Bool
  | .dict _ => true
  | _ => false

/-- Constructor test mirroring `isinstance(v, list)`. -/
def isList : PyVal → Bool
  | .list _ => true
  | _ => false

/-- Constructor test mirroring `isinstance(v, str)`. -/
def isStr : PyVal → Bool
  | .str _ => true
  | _ => false

/-- Runs a `try` body, turning a raised exception into the handler's
stand-in value (the body of an `except Exception as e` clause that
receives `str(e)`). -/
def pyTry (body : Except String PyVal) (handler : String → PyVal) : PyVal :=
  match body with
  | .ok v => v
  | .error e => handler e

/-- Escapes backslashes, and single quotes when `escapeSq` is set,
character by character (the escaping Python `repr` performs on
printable string content). -/
def pyEscapeChars (escapeSq : Bool) : List Char → List Char
  | [] => []
  | c :: cs =>
      if c = Char.ofNat 92 then Char.ofNat 92 :: Char.ofNat 92 :: pyEscapeChars escapeSq cs
      else if escapeSq && c = Char.ofNat 39 then
        Char.ofNat 92 :: Char.ofNat 39 :: pyEscapeChars escapeSq cs
      else c :: pyEscapeChars escapeSq cs

/-- Python `repr` of a string: double quotes when the content has a
single quote and no double quote, single quotes (escaping backslashes
and single quotes) otherwise. -/
def pyReprStr (s : String) : String :=
  if s.data.contains (Char.ofNat 39) && !s.data.contains (Char.ofNat 34) then
    String.mk (Char.ofNat 34 :: (pyEscapeChars false s.data ++ [Char.ofNat 34]))
  else
    String.mk (Char.ofNat 39 :: (pyEscapeChars true s.data ++ [Char.ofNat 39]))

mutual

/-- Python `repr` of a JSON-decoded value: `None`, `True`/`False`,
decimal integers, quoted strings, bracketed lists, braced dicts. -/
def pyRepr : PyVal → String
  | .none => "None"
  | .bool b => if b then "True" else "False"
  | .int n => toString n
  | .str s => pyReprStr s
  | .list xs => "[" ++ pyReprJoinList xs ++ "]"
  | .dict kvs => "\x7b" ++ pyReprJoinKVs kvs ++ "\x7d"

/-- Comma-joined reprs of list elements. -/
def pyReprJoinList : List PyVal → String
  | [] => ""
  | [x] => pyRepr x
  | x :: rest => pyRepr x ++ ", " ++ pyReprJoinList rest

/-- Comma-joined `key: value` reprs of dict entries. -/
def pyReprJoinKVs : List (String × PyVal) → String
  | [] => ""
  | [(k, v)] => pyReprStr k ++ ": " ++ pyRepr v
  | (k, v) :: rest => pyReprStr k ++ ": " ++ pyRepr v ++ ", " ++ pyReprJoinKVs rest

end

/-- Python `str`: identity on strings, `repr` on every other value. -/
def pyStr : PyVal → String
  | .str s => s
  | v => pyRepr v

mutual

/-- Python `==` on JSON-decoded values (structural, order-sensitive on
dicts only through their entry lists; used below to define
order-insensitive mapping equivalence). -/
def pyEqb : PyVal → PyVal → Bool
  | .none, .none => true
  | .bool a, .bool b => a == b
  | .int a, .int b => a == b
  | .str a, .str b => a == b
  | .list a, .list b => pyEqbList a b
  | .dict a, .dict b => pyEqbKVs a b
  | _, _ => false

/-- Elementwise equality of value lists. -/
def pyEqbList : List PyVal → List PyVal → Bool
  | [], [] => true
  | a :: as_, b :: bs => pyEqb a b && pyEqbList as_ bs
  | _, _ => false

/-- Entrywise equality of dict entry lists. -/
def pyEqbKVs : List (String × PyVal) → List (String × PyVal) → Bool
  | [], [] => true
  | (ka, va) :: as_, (kb, vb) :: bs => ka == kb && pyEqb va vb && pyEqbKVs as_ bs
  | _, _ => false

end

/-- Equality of two dicts as mappings: same key set with equal values,
regardless of insertion order (Python `d1 == d2`). -/
def dictEquivAsMap (kvs1 kvs2 : List (String × PyVal)) : Bool :=
  (kvs1.all fun kv => match kvs2.lookup kv.1 with
    | some w => pyEqb kv.2 w
    | Option.none => false) &&
  (kvs2.all fun kv => (kvs1.lookup kv.1).isSome)

/-- Pre-hash cache-key encoding from `LLm_service.generate_response`
line 31: the plain concatenation `query + str(context_data)`.  The
cache key is the SHA-256 hex digest of this string. -/
def fingerprintInput (query : String) (ctx : PyVal) : String :=
  query ++ pyStr ctx

/-- Cache-key fingerprint, parameterized by the cryptographic hash
(SHA-256 hex digest) applied to the pre-hash encoding. -/
def fingerprint (hash : String → String) (query : String) (ctx : PyVal) : String :=
  hash (fingerprintInput query ctx)

/-- In-memory response cache `llm_cache`: fingerprint to
(creation time, response), first entry for a key shadows older ones
(modelling dict overwrite). -/
abbrev LLMCache := List (String × (Int × String))

/-- Cache time-to-live, `LLM_CACHE_TTL = 60 * 10` seconds. -/
def LLM_CACHE_TTL : Int := 60 * 10

/-- Cache read as performed by `generate_response` lines 34-37: the
stored response only when the entry exists and `now - t < TTL`. -/
def cacheGet (c : LLMCache) (k : String) (now : Int) : Option String :=
  match c.lookup k with
  | some (t, r) => if now - t < LLM_CACHE_TTL then some r else Option.none
  | Option.none => Option.none

/-- Cache write `llm_cache[cache_key] = (now, llm_response)` (line
128); consing shadows any earlier entry for the key, modelling dict
overwrite. -/
def cachePut (c : LLMCache) (k : String) (now : Int) (v : String) : LLMCache :=
  (k, (now, v)) :: c

/-- Fixed truncation marker appended at `generate_response` line 106. -/
def TRUNCATION_MARKER : String := "...[additional data truncated for size]"

/-- Global serialized-context ceiling (characters), line 105. -/
def CONTEXT_CEILING : Nat := 25000

/-- Size bounding of the serialized context string,
`generate_response` lines 105-106: strings longer than the ceiling are
cut to the ceiling and the marker is appended, shorter strings pass
through unchanged. -/
def truncateContextStr (s : String) : String :=
  if s.length > CONTEXT_CEILING then
    String.mk (s.data.take CONTEXT_CEILING) ++ TRUNCATION_MARKER
  else s

/-- Result triple of `NFLApiClient._safe_get`:
`(success, result, error)`. -/
abbrev FetchResult := Bool × Option PyVal × Option String

/-- Embedding of `NFLApiClient._safe_get`: runs the underlying `_get`
(modelled by the `fetch` collaborator, whose `Except` error is the
raised exception's message) and converts the outcome into a
`FetchResult`, never raising. -/
def safeGet (fetch : String → PyVal → Except String PyVal)
    (endpoint : String) (params : PyVal) : FetchResult :=
  match fetch endpoint params with
  | .ok result => (true, some result, Option.none)
  | .error e => (false, Option.none, some e)

/-- Embedding of `NFLApiClient.batch_get`: one `_safe_get` per request,
results joined in input order (asyncio.gather preserves the order of
its argument list regardless of completion order). -/
def batchGet (fetch : String → PyVal → Except String PyVal)
    (reqs : List (String × PyVal)) : List FetchResult :=
  reqs.map fun r => safeGet fetch r.1 r.2

/-- HTTPException raised by `NFLService.get_data` for non-standings
endpoints. -/
structure HTTPExc where
  status : Nat
  detail : String

/-- Starlette renders `str(HTTPException)` as `"status: detail"`. -/
def excToStr (e : HTTPExc) : String :=
  toString e.status ++ ": " ++ e.detail

/-- Outcome of the upstream Fantasy Nerds HTTP round trip performed
inside `NFLService.get_data`: a decoded JSON payload, a timeout, a
non-2xx status error (with the exception's message), or any other
exception. -/
inductive Upstream where
  | ok (data : PyVal)
  | timeout
  | statusError (code : Nat) (emsg : String)
  | exc (emsg : String)

/-- Replaces every dash with an underscore, `endpoint.replace("-", "_")`. -/
def dashToUnderscore (s : String) : String :=
  s.replace "-" "_"

/-- The well-formed empty standings placeholder. -/
def standingsNoData : PyVal :=
  .dict [("standings", .dict []), ("message", .str "No standings data available")]

/-- Embedding of `NFLService.get_data` (nfl_service.py lines 10-92):
strips a leading slash from the endpoint, performs the fetch, converts
empty-list payloads into endpoint-specific empty structures, and maps
timeout/status/other failures to either a standings placeholder (for
the standings endpoint) or a raised HTTPException. -/
def getData (baseUrl : String) (endpoint0 : String) (u : Upstream) :
    Except HTTPExc PyVal :=
  let endpoint :=
    if endpoint0.data.head? = some (Char.ofNat 47) then String.mk (endpoint0.data.drop 1)
    else endpoint0
  let url := baseUrl ++ "/" ++ endpoint
  match u with
  | .ok data =>
      if isList data && !pyTruthy data then
        if endpoint = "standings" then .ok standingsNoData
        else if endpoint ∈ ["draft-rankings", "player-tiers", "auction-values", "adp", "best-ball"] then
          .ok (.dict [(dashToUnderscore endpoint, .dict [])])
        else if endpoint = "teams" then .ok (.dict [("teams", .list [])])
        else .ok (.dict [(dashToUnderscore endpoint, .dict [])])
      else .ok data
  | .timeout =>
      let errMsg := "Request to " ++ url ++ " timed out"
      if endpoint = "standings" then
        .ok (.dict [("standings", .dict []), ("message", .str errMsg)])
      else .error ⟨408, errMsg⟩
  | .statusError code emsg =>
      let detail :=
        if code = 401 then "API key invalid or expired"
        else if code = 403 then "Access forbidden. Check API subscription"
        else if code = 404 then "Resource not found: " ++ endpoint
        else if code = 429 then "Rate limit exceeded"
        else "HTTP error " ++ toString code ++ ": " ++ emsg
      if endpoint = "standings" then
        .ok (.dict [("standings", .dict []), ("message", .str detail)])
      else .error ⟨code, detail⟩
  | .exc emsg =>
      let errMsg := "Unexpected error: " ++ emsg
      if endpoint = "standings" then
        .ok (.dict [("standings", .dict []), ("message", .str errMsg)])
      else .error ⟨500, errMsg⟩

/-- Embedding of `NFLService.get_standings` (nfl_service.py lines
112-130): calls `get_data("standings")`, converts an empty-list result
into the placeholder, and converts any escaped exception into an error
placeholder instead of propagating it. -/
def getStandings (baseUrl : String) (u : Upstream) : PyVal :=
  match getData baseUrl "standings" u with
  | .ok data =>
      match data with
      | .list [] => standingsNoData
      | _ => data
  | .error e =>
      .dict [("standings", .dict []),
             ("message", .str ("Error retrieving standings: " ++ excToStr e))]

/-- Python `for x in v`: list elements, dict keys, string characters;
`TypeError` on non-iterables. -/
def pyIter (v : PyVal) : Except String (List PyVal) :=
  match v with
  | .list xs => .ok xs
  | .dict kvs => .ok (kvs.map fun kv => .str kv.1)
  | .str s => .ok (s.toList.map fun c => .str (String.singleton c))
  | _ => .error ("\x27" ++ pyTypeName v ++ "\x27 object is not iterable")

/-- Python `str.isupper`: at least one cased character and no
lowercase character. -/
def pyIsUpper (s : String) : Bool :=
  (s.toList.any fun c => c.isAlpha) && (s.toList.all fun c => !c.isLower)

/-- Integer extraction for sort keys. -/
def asInt : PyVal → Option Int
  | .int n => some n
  | _ => Option.none

/-- String extraction for sort keys. -/
def asStr : PyVal → Option String
  | .str s => some s
  | _ => Option.none

/-- Stable insertion used by the sort model: an element is placed
after every element strictly smaller under `lt`, so ties keep their
original order, as Python's sort guarantees. -/
def insertByLt (lt : α → α → Bool) (x : α) : List α → List α
  | [] => [x]
  | y :: ys => if lt y x then y :: insertByLt lt x ys else x :: y :: ys

/-- Stable sort by an ordering predicate `lt`. -/
def sortByLtStable (lt : α → α → Bool) (l : List α) : List α :=
  l.foldr (insertByLt lt) []

/-- Python `sorted` over `(key, element)` pairs: keys of one
comparable type (all ints or all strings) sort stably, ascending or
descending; mixed key types raise `TypeError` as Python does. -/
def pySortVals (keyed : List (PyVal × PyVal)) (desc : Bool) :
    Except String (List PyVal) :=
  match keyed.mapM (fun kp => (asInt kp.1).map fun n => (n, kp.2)) with
  | some ik =>
      .ok ((sortByLtStable (fun a b => if desc then b.1 < a.1 else a.1 < b.1) ik).map Prod.snd)
  | Option.none =>
      match keyed.mapM (fun kp => (asStr kp.1).map fun s => (s, kp.2)) with
      | some sk =>
          .ok ((sortByLtStable (fun a b => if desc then b.1 < a.1 else a.1 < b.1) sk).map Prod.snd)
      | Option.none => .error "\x27<\x27 not supported between instances"

/-- Embedding of `_summarize_league_structure` (LLm_service.py lines
284-346).  The empty check returns an empty dict; a list payload is
reduced to a 10-team sample; a dict payload reduces its
conference/division/team hierarchy inside the reducer's `try`; the
initial `league_data.get("name", "NFL")` read sits before the `try`,
so it raises (escaping the reducer) on a truthy non-list non-dict
payload. -/
def summarizeLeagueStructure (league_data : PyVal) : Except String PyVal := do
  if !pyTruthy league_data then
    return .dict []
  match league_data with
  | .list xs =>
      return .dict [("league_name", .str "NFL"),
        ("teams_count", .int xs.length),
        ("teams_sample", .list ((xs.take 10).filterMap fun team =>
          match team with
          | .dict t => some (.dict [("name", dGet t "name" (.str "")),
              ("market", dGet t "market" (.str "")),
              ("alias", dGet t "alias" (.str "")),
              ("conference", dGet t "conference" (.str "")),
              ("division", dGet t "division" (.str ""))])
          | _ => Option.none))]
  | _ => do
      let lname ← pyGetD league_data "name" (.str "NFL")
      return pyTry (do
        let confs ←
          if (← pyIn "conferences" league_data) then do
            let cv ← pySub league_data "conferences"
            let cl ← pyIter cv
            cl.mapM fun conference => do
              let n ← pyGetD conference "name" (.str "")
              let a ← pyGetD conference "alias" (.str "")
              let dv ← pyGetD conference "divisions" (.list [])
              let dl ← pyIter dv
              let divs ← dl.mapM fun division => do
                let dn ← pyGetD division "name" (.str "")
                let da ← pyGetD division "alias" (.str "")
                let tv ← pyGetD division "teams" (.list [])
                let tl ← pyIter tv
                let teams ← tl.mapM fun team => do
                  let tn ← pyGetD team "name" (.str "")
                  let tm ← pyGetD team "market" (.str "")
                  let ta ← pyGetD team "alias" (.str "")
                  return PyVal.dict [("name", tn), ("market", tm), ("alias", ta)]
                return PyVal.dict [("name", dn), ("alias", da), ("teams", .list teams)]
              return PyVal.dict [("name", n), ("alias", a), ("divisions", .list divs)]
          else pure []
        return .dict [("league_name", lname), ("conferences", .list confs)])
        (fun _ => .dict [("summary",
          .str "League structure data available but could not be summarized")])

/-- Embedding of `_summarize_team_profile` (lines 348-393): team info,
up to 3 coaches, and the 10 players lowest on the depth chart (stable
ascending sort by `depth`, default 99); every read sits inside the
reducer's `try`, recovered to the profile stand-in. -/
def summarizeTeamProfile (profile_data : PyVal) : PyVal :=
  if !pyTruthy profile_data then .dict []
  else pyTry (do
    let id_ ← pyGetD profile_data "id" (.str "")
    let nm ← pyGetD profile_data "name" (.str "")
    let mk ← pyGetD profile_data "market" (.str "")
    let al ← pyGetD profile_data "alias" (.str "")
    let cf ← pyGetD profile_data "conference" (.str "")
    let dv ← pyGetD profile_data "division" (.str "")
    let teamInfo := PyVal.dict [("id", id_), ("name", nm), ("market", mk),
      ("alias", al), ("conference", cf), ("division", dv)]
    let coaches ←
      if (← pyIn "coaches" profile_data) then do
        let cv ← pySub profile_data "coaches"
        let cs ← pySlice cv 3
        let cl ← pyIter cs
        cl.mapM fun coach => do
          let n ← pyGetD coach "name" (.str "")
          let p ← pyGetD coach "position" (.str "")
          let e ← pyGetD coach "experience" (.str "")
          return PyVal.dict [("name", n), ("position", p), ("experience", e)]
      else pure []
    let keyPlayers ←
      if (← pyIn "players" profile_data) then do
        let pv ← pySub profile_data "players"
        let pl ← pyIter pv
        let keyed ← pl.mapM fun p => do
          let d ← pyGetD p "depth" (.int 99)
          pure (d, p)
        let sorted_ ← pySortVals keyed false
        (sorted_.take 10).mapM fun player => do
          let n ← pyGetD player "name" (.str "")
          let p ← pyGetD player "position" (.str "")
          let j ← pyGetD player "jersey_number" (.str "")
          let dep ← pyGetD player "depth" (.int 0)
          return PyVal.dict [("name", n), ("position", p),
            ("jersey_number", j), ("depth", dep)]
      else pure []
    return .dict [("team_info", teamInfo), ("coaches", .list coaches),
      ("key_players", .list keyPlayers)])
    (fun _ => .dict [("summary",
      .str "Team profile data available but could not be summarized")])

/-- Embedding of `_summarize_team_injuries` (lines 395-419): team
name/alias plus up to 10 injured players.  The name/alias reads sit
before the `try`, so they raise (escaping the reducer) on a truthy
non-dict payload. -/
def summarizeTeamInjuries (injuries_data : PyVal) : Except String PyVal := do
  if !pyTruthy injuries_data then
    return .dict []
  let team ← pyGetD injuries_data "name" (.str "")
  let alias_ ← pyGetD injuries_data "alias" (.str "")
  return pyTry (do
    let players ←
      if (← pyIn "players" injuries_data) then do
        let pv ← pySub injuries_data "players"
        let ps ← pySlice pv 10
        let pl ← pyIter ps
        pl.mapM fun player => do
          let n ← pyGetD player "name" (.str "")
          let p ← pyGetD player "position" (.str "")
          let st ← pyGetD player "status" (.str "")
          let inj ← pyGetD player "injury" (.str "")
          return PyVal.dict [("name", n), ("position", p), ("status", st),
            ("injury", inj)]
      else pure []
    return .dict [("team", team), ("alias", alias_),
      ("injured_players", .list players)])
    (fun _ => .dict [("summary",
      .str "Team injuries data available but could not be summarized")])

/-- Embedding of `_summarize_games` (lines 421-457): up to 10 games,
falling back from flat `home_team`/`away_team` fields to the nested
`home`/`away` alias form; the whole body sits in the reducer's `try`,
recovered to a one-element stand-in list. -/
def summarizeGames (games_data : PyVal) : PyVal :=
  if !pyTruthy games_data then .list []
  else pyTry (do
    let gs ← pySlice games_data 10
    let gl ← pyIter gs
    let out ← gl.mapM fun game => do
      let ht0 ← pyGetD game "home_team" (.str "")
      let at0 ← pyGetD game "away_team" (.str "")
      let ht ←
        if !pyTruthy ht0 then do
          let h ← pyGetD game "home" (.dict [])
          pyGetD h "alias" (.str "")
        else pure ht0
      let aw ←
        if !pyTruthy at0 then do
          let a ← pyGetD game "away" (.dict [])
          pyGetD a "alias" (.str "")
        else pure at0
      let idDefault ← pyGetD game "id" (.str "")
      let gameId ← pyGetD game "gameId" idDefault
      let week ← pyGetD game "week" (.str "")
      let schedDefault ← pyGetD game "scheduled" (.str "")
      let gdate ← pyGetD game "game_date" schedDefault
      let tv ← pyGetD game "tv_station" (.str "")
      let hpDefault ← pyGetD game "home_points" (.int 0)
      let hscore ← pyGetD game "home_score" hpDefault
      let apDefault ← pyGetD game "away_points" (.int 0)
      let ascore ← pyGetD game "away_score" apDefault
      let status ← pyGetD game "status" (.str "Scheduled")
      return PyVal.dict [("gameId", gameId), ("week", week),
        ("game_date", gdate), ("home_team", ht), ("away_team", aw),
        ("tv_station", tv), ("home_score", hscore), ("away_score", ascore),
        ("status", status)]
    return .list out)
    (fun _ => .list [.dict [("summary",
      .str "Games data available but could not be summarized")]])

/-- Embedding of `_summarize_standings_data` (lines 459-503): season
year plus the conference/division/team win-loss hierarchy.  The
`standings_data.get("season", {}).get("year", "")` chain sits before
the `try`, so it raises (escaping the reducer) on a truthy non-dict
payload or a non-dict `season` value. -/
def summarizeStandingsData (standings_data : PyVal) : Except String PyVal := do
  if !pyTruthy standings_data then
    return .dict []
  let seasonVal ← pyGetD standings_data "season" (.dict [])
  let year ← pyGetD seasonVal "year" (.str "")
  return pyTry (do
    let confs ←
      if (← pyIn "conferences" standings_data) then do
        let cv ← pySub standings_data "conferences"
        let cl ← pyIter cv
        cl.mapM fun conference => do
          let n ← pyGetD conference "name" (.str "")
          let a ← pyGetD conference "alias" (.str "")
          let dv ← pyGetD conference "divisions" (.list [])
          let dl ← pyIter dv
          let divs ← dl.mapM fun division => do
            let dn ← pyGetD division "name" (.str "")
            let da ← pyGetD division "alias" (.str "")
            let tv ← pyGetD division "teams" (.list [])
            let tl ← pyIter tv
            let teams ← tl.mapM fun team => do
              let tn ← pyGetD team "name" (.str "")
              let ta ← pyGetD team "alias" (.str "")
              let w ← pyGetD team "wins" (.int 0)
              let l ← pyGetD team "losses" (.int 0)
              let t ← pyGetD team "ties" (.int 0)
              let wp ← pyGetD team "win_pct" (.int 0)
              let pf ← pyGetD team "points_for" (.int 0)
              let pa ← pyGetD team "points_against" (.int 0)
              return PyVal.dict [("name", tn), ("alias", ta), ("wins", w),
                ("losses", l), ("ties", t), ("win_pct", wp),
                ("points_for", pf), ("points_against", pa)]
            return PyVal.dict [("name", dn), ("alias", da),
              ("teams", .list teams)]
          return PyVal.dict [("name", n), ("alias", a),
            ("divisions", .list divs)]
      else pure []
    return .dict [("season", year), ("conferences", .list confs)])
    (fun _ => .dict [("summary",
      .str "Standings data available but could not be summarized")])

/-- Embedding of `_summarize_schedule_data` (lines 505-546): a list
payload becomes a fixed-year wrapper over its first 10 games, a dict
payload takes year/type/games from its fields; non-dict games are
skipped; everything sits in the reducer's `try`. -/
def summarizeScheduleData (data : PyVal) : PyVal :=
  pyTry (do
    let (year, typ, games) ←
      match data with
      | .list xs => pure (PyVal.str "current", PyVal.str "regular", xs.take 10)
      | _ => do
          let y ← pyGetD data "year" (.str "")
          let t ← pyGetD data "type" (.str "")
          let gv ← pyGetD data "games" (.list [])
          let gs ← pySlice gv 10
          let gl ← pyIter gs
          pure (y, t, gl)
    let out ← games.filterMapM fun game =>
      match game with
      | .dict g => do
          let homeDefault ← pyGetD (dGet g "home" (.dict [])) "alias" (.str "")
          let awayDefault ← pyGetD (dGet g "away" (.dict [])) "alias" (.str "")
          return some (PyVal.dict [
            ("gameId", dGet g "gameId" (dGet g "id" (.str ""))),
            ("season", dGet g "season" (.str "")),
            ("week", dGet g "week" (.str "")),
            ("game_date", dGet g "game_date" (dGet g "scheduled" (.str ""))),
            ("home_team", dGet g "home_team" homeDefault),
            ("away_team", dGet g "away_team" awayDefault),
            ("home_score", dGet g "home_score" (dGet g "home_points" .none)),
            ("away_score", dGet g "away_score" (dGet g "away_points" .none)),
            ("tv_station", dGet g "tv_station" (.str "")),
            ("winner", dGet g "winner" .none)])
      | _ => pure Option.none
    return .dict [("year", year), ("type", typ), ("games", .list out)])
    (fun _ => .dict [("summary",
      .str "Schedule data available but could not be summarized")])

/-- Embedding of `_summarize_injury_data` (lines 548-589): week plus
up to 10 teams of up to 10 injured players each; the whole body sits
in the reducer's `try`. -/
def summarizeInjuryData (data : PyVal) : PyVal :=
  pyTry (do
    let (week, teams) ←
      match data with
      | .list xs => pure (PyVal.str "current", xs.take 10)
      | _ => do
          let w ← pyGetD data "week" (.str "")
          let tv ← pyGetD data "teams" (.list [])
          let ts ← pySlice tv 10
          let tl ← pyIter ts
          pure (w, tl)
    let out ← teams.mapM fun team => do
      let n ← pyGetD team "name" (.str "")
      let a ← pyGetD team "alias" (.str "")
      let pv ← pyGetD team "players" (.list [])
      let ps ← pySlice pv 10
      let pl ← pyIter ps
      let injs ← pl.mapM fun player => do
        let pn ← pyGetD player "name" (.str "")
        let pp ← pyGetD player "position" (.str "")
        let st ← pyGetD player "status" (.str "")
        let inj ← pyGetD player "injury" (.str "")
        return PyVal.dict [("name", pn), ("position", pp), ("status", st),
          ("injury", inj)]
      return PyVal.dict [("name", n), ("alias", a), ("injuries", .list injs)]
    return .dict [("week", week), ("teams_with_injuries", .list out)])
    (fun _ => .dict [("summary",
      .str "Injury data available but could not be summarized")])

/-- Embedding of `_extract_key_stats` (lines 614-659): pulls team,
passing, rushing and receiving totals out of a boxscore statistics
block.  It has no `try` of its own, so any raise escapes to the
caller. -/
def extractKeyStats (stats : PyVal) : Except String PyVal := do
  if !pyTruthy stats then
    return .dict []
  let mut out : List (String × PyVal) := []
  if (← pyIn "team" stats) then
    let team ← pySub stats "team"
    let fd ← pyGetD team "first_downs" (.int 0)
    let ty ← pyGetD team "total_yards" (.int 0)
    let pe ← pyGetD team "penalties" (.int 0)
    let py ← pyGetD team "penalty_yards" (.int 0)
    let tov ← pyGetD team "turnovers" (.int 0)
    let tp ← pyGetD team "possession_time" (.str "")
    out := dSet out "team" (.dict [("first_downs", fd), ("total_yards", ty),
      ("penalties", pe), ("penalty_yards", py), ("turnovers", tov),
      ("time_of_possession", tp)])
  if (← pyIn "passing" stats) then
    let p ← pySub stats "passing"
    let c ← pyGetD p "completions" (.int 0)
    let a ← pyGetD p "attempts" (.int 0)
    let y ← pyGetD p "yards" (.int 0)
    let t ← pyGetD p "touchdowns" (.int 0)
    let i ← pyGetD p "interceptions" (.int 0)
    out := dSet out "passing" (.dict [("completions", c), ("attempts", a),
      ("yards", y), ("touchdowns", t), ("interceptions", i)])
  if (← pyIn "rushing" stats) then
    let r ← pySub stats "rushing"
    let a ← pyGetD r "attempts" (.int 0)
    let y ← pyGetD r "yards" (.int 0)
    let t ← pyGetD r "touchdowns" (.int 0)
    out := dSet out "rushing" (.dict [("attempts", a), ("yards", y),
      ("touchdowns", t)])
  if (← pyIn "receiving" stats) then
    let r ← pySub stats "receiving"
    let c ← pyGetD r "receptions" (.int 0)
    let y ← pyGetD r "yards" (.int 0)
    let t ← pyGetD r "touchdowns" (.int 0)
    out := dSet out "receiving" (.dict [("receptions", c), ("yards", y),
      ("touchdowns", t)])
  return .dict out

/-- Embedding of `_summarize_boxscore` (lines 591-612): id, status,
schedule and per-side name/alias/points/scoring/statistics.  This
reducer has NO `try/except`, so any raise — for example `.get` on a
non-dict payload — escapes to `_summarize_context_data`. -/
def summarizeBoxscore (data : PyVal) : Except String PyVal := do
  let id_ ← pyGetD data "id" (.str "")
  let status ← pyGetD data "status" (.str "")
  let sched ← pyGetD data "scheduled" (.str "")
  let home ← pyGetD data "home" (.dict [])
  let hname ← pyGetD home "name" (.str "")
  let halias ← pyGetD home "alias" (.str "")
  let hpoints ← pyGetD data "home_points" (.int 0)
  let hscoring ← pyGetD home "scoring" (.list [])
  let hstatsRaw ← pyGetD home "statistics" (.dict [])
  let hstats ← extractKeyStats hstatsRaw
  let away ← pyGetD data "away" (.dict [])
  let aname ← pyGetD away "name" (.str "")
  let aalias ← pyGetD away "alias" (.str "")
  let apoints ← pyGetD data "away_points" (.int 0)
  let ascoring ← pyGetD away "scoring" (.list [])
  let astatsRaw ← pyGetD away "statistics" (.dict [])
  let astats ← extractKeyStats astatsRaw
  return .dict [("id", id_), ("status", status), ("scheduled", sched),
    ("home", .dict [("name", hname), ("alias", halias), ("points", hpoints),
      ("scoring", hscoring), ("statistics", hstats)]),
    ("away", .dict [("name", aname), ("alias", aalias), ("points", apoints),
      ("scoring", ascoring), ("statistics", astats)])]

/-- Embedding of `_create_generic_summary` (lines 661-679): the
generic bounded fallback — first 10 top-level keys, and for each
list-valued one its length plus up to 5 field names sampled from its
first element.  Note: no call site in the repository reaches this
function. -/
def createGenericSummary (data : PyVal) : PyVal :=
  match data with
  | .dict kvs =>
      let keys := (kvs.take 10).map Prod.fst
      let base := [("data_summary", PyVal.str "NFL data available"),
                   ("available_data", PyVal.list (keys.map PyVal.str))]
      .dict ((kvs.take 10).foldl (fun acc kv =>
        match kv.2 with
        | .list xs =>
            let acc1 := dSet acc (kv.1 ++ "_count") (PyVal.int xs.length)
            match xs with
            | (PyVal.dict fieldKvs) :: _ =>
                dSet acc1 (kv.1 ++ "_contains")
                  (PyVal.list ((fieldKvs.take 5).map fun f => PyVal.str f.1))
            | _ => acc1
        | _ => acc) base)
  | _ => .dict [("data_summary", .str "NFL data available")]

/-- Position keys probed by the fantasy-rankings shape detection. -/
def POSITION_KEYS : List String := ["QB", "RB", "WR", "TE", "K", "DEF"]

/-- Per-player summary produced by the flat-list branch of
`_summarize_fantasy_rankings` (lines 702-736). -/
def flatPlayerSummary (p : List (String × PyVal)) : PyVal :=
  let base := [("id", dGet p "player_id" (.str "")),
               ("name", dGet p "display_name" (dGet p "name" (.str ""))),
               ("team", dGet p "team" (.str "")),
               ("position", dGet p "position" (.str "")),
               ("rank", dGet p "rank" (dGet p "position_rank" (.int 0))),
               ("bye_week", dGet p "bye_week" (.str ""))]
  let base := if dHas p "standard_points" then
      dSet base "projected_points" (.dict [
        ("standard", dGet p "standard_points" (.int 0)),
        ("ppr", dGet p "ppr_points" (.int 0)),
        ("half_ppr", dGet p "half_ppr_points" (.int 0))])
    else base
  let base := if dHas p "proj_pts" then
      dSet base "projected_points" (dGet p "proj_pts" (.int 0))
    else base
  let base := if dHas p "adp" then dSet base "adp" (dGet p "adp" (.int 0)) else base
  let base := if dHas p "injury_risk" then
      dSet base "injury_risk" (dGet p "injury_risk" (.str ""))
    else base
  .dict base

/-- Per-player summary produced by the position-keyed branch
(lines 754-770); non-dict entries become an error record. -/
def posPlayerSummary (player : PyVal) : PyVal :=
  match player with
  | .dict p =>
      let base := [("name", dGet p "display_name" (dGet p "name" (.str ""))),
                   ("team", dGet p "team" (.str "")),
                   ("rank", dGet p "rank" (dGet p "position_rank" (.int 0)))]
      let base := if dHas p "proj_pts" then
          dSet base "projected_points" (dGet p "proj_pts" (.int 0))
        else base
      .dict base
  | _ => .dict [("error", .str "Unexpected player data format")]

/-- The bounded position-keyed mapping that the Case-1 branch of
`_summarize_fantasy_rankings` BUILDS (lines 747-770): each position
whose value is a nonempty list, capped at 25 players for QB and 15
for every other position, in input order.  The source constructs this
value but the branch has no `return` statement, so the built mapping
is discarded (see `summarizeFantasyRankingsF`). -/
def posKeyedRankingsSummary (kvs : List (String × PyVal)) : PyVal :=
  .dict (kvs.foldl (fun acc kv =>
    match kv.2 with
    | .list players =>
        if players.isEmpty then acc
        else
          let maxPlayers := if kv.1 = "QB" then 25 else 15
          dSet acc kv.1 (.list ((players.take maxPlayers).map posPlayerSummary))
    | _ => acc) [])

/-- Stand-in the reducer's `except` clause yields for a
`RecursionError` (the fuel models Python's recursion limit). -/
def rankingsRecursionStandIn : PyVal :=
  .dict [("summary", .str "Rankings data available but could not be summarized"),
         ("error", .str "maximum recursion depth exceeded")]

/-- Embedding of `_summarize_fantasy_rankings` (lines 681-801).
Faithful to the control flow of the source, including its two missing
`return` statements:
* a falsy payload yields the no-data stand-in;
* a flat list yields the first 25 dict records summarized in order
  (non-dict entries skipped), returned at line 738;
* Case 1 (a dict with one of the `POSITION_KEYS`) BUILDS the capped
  per-position mapping but never returns it — control falls off the
  end of the function, which therefore returns `None`;
* Case 2 (a `data` key holding a list or dict) recurses on it;
* Case 3 with a list-valued `players` key assigns a recursive sample
  into the summary but again falls off the end, returning `None`;
* Case 3 otherwise returns metadata plus a sample recursed from the
  first list-of-dicts field (line 795);
* any other payload type yields the unexpected-format stand-in. -/
def summarizeFantasyRankingsF : Nat → PyVal → PyVal
  | 0, _ => rankingsRecursionStandIn
  | Nat.succ fuel, rankings_data =>
    if !pyTruthy rankings_data then
      .dict [("summary", .str "No rankings data available")]
    else
      match rankings_data with
      | .list xs =>
          .list ((xs.take 25).filterMap fun player =>
            match player with
            | .dict p => some (flatPlayerSummary p)
            | _ => Option.none)
      | .dict kvs =>
          if POSITION_KEYS.any (fun pos => dHas kvs pos) then
            -- Case 1: the source builds `posKeyedRankingsSummary kvs` but
            -- the branch has no return statement, so the function falls
            -- off the end and returns None.
            let _discarded := posKeyedRankingsSummary kvs
            PyVal.none
          else if (match kvs.lookup "data" with
                   | some w => isList w || isDict w
                   | Option.none => false) then
            summarizeFantasyRankingsF fuel (dGet kvs "data" .none)
          else
            let metadata := kvs.filter fun kv =>
              !(["players", "data"].contains kv.1) && !isList kv.2 && !isDict kv.2
            if (match kvs.lookup "players" with
                | some w => isList w
                | Option.none => false) then
              -- Case 3 with a players key: the source assigns a sample
              -- recursed from players[:30] into the summary but again
              -- falls off the end without returning it.
              let _discarded :=
                match kvs.lookup "players" with
                | some (.list ps) => summarizeFantasyRankingsF fuel (.list (ps.take 30))
                | _ => PyVal.none
              PyVal.none
            else
              let sample :=
                match kvs.find? (fun kv =>
                  match kv.2 with
                  | .list (first :: _) => isDict first
                  | _ => false) with
                | some kv =>
                    match kv.2 with
                    | .list vs => summarizeFantasyRankingsF fuel (.list (vs.take 30))
                    | _ => .list []
                | Option.none => .list []
              .dict [("metadata", .dict metadata), ("players_sample", sample)]
      | _ => .dict [("summary", .str "Rankings data available but in unexpected format")]

/-- `_summarize_fantasy_rankings` at Python's default recursion limit. -/
def summarizeFantasyRankings (v : PyVal) : PyVal :=
  summarizeFantasyRankingsF 1000 v

/-- Embedding of `_summarize_news_data` (lines 803-836): first 5 dict
articles with a 200-character excerpt cut, a count summary for dict
payloads, a format stand-in otherwise; recovered to the news stand-in
with the error message on any raise. -/
def summarizeNewsData (news_data : PyVal) : PyVal :=
  pyTry (do
    match news_data with
    | .list xs =>
        let out ← (xs.take 5).filterMapM fun article =>
          match article with
          | .dict a => do
              let ex := dGet a "article_excerpt" (.str "")
              let exLen ← pyLen ex
              let excerpt ←
                if exLen > 200 then do
                  let cut ← pySlice ex 200
                  match cut with
                  | .str s => pure (PyVal.str (s ++ "..."))
                  | _ => Except.error ("can only concatenate str (not \x22" ++ pyTypeName cut ++ "\x22) to str")
                else pure ex
              return some (PyVal.dict [
                ("headline", dGet a "article_headline" (.str "")),
                ("date", dGet a "article_date" (.str "")),
                ("author", dGet a "article_author" (.str "")),
                ("excerpt", excerpt),
                ("teams", dGet a "teams" (.list []))])
          | _ => pure Option.none
        return .list out
    | .dict kvs => do
        let count ←
          if dHas kvs "articles" then pyLen (dGet kvs "articles" (.list []))
          else pure kvs.length
        return .dict [("summary", .str "News data available"),
          ("count", .int count)]
    | _ =>
        return .dict [("summary",
          .str "News data available but in unexpected format")])
    (fun e => .dict [("summary",
      .str "News data available but could not be summarized"),
      ("error", .str e)])

/-- Stat keys copied by the ROS projections reducer when present. -/
def ROS_STAT_KEYS : List String :=
  ["passing_yards", "passing_touchdowns", "rushing_yards",
   "rushing_touchdowns", "receiving_yards", "receiving_touchdowns"]

/-- Per-player summary of the ROS projections reducer (lines 869-886);
non-dict entries are skipped. -/
def rosPlayerSummary (position : String) (player : PyVal) : Option PyVal :=
  match player with
  | .dict p =>
      let base := [("name", dGet p "name" (.str "")),
                   ("team", dGet p "team" (.str "")),
                   ("position", dGet p "position" (.str position))]
      let base := if dHas p "proj_pts" then
          dSet base "projected_points" (dGet p "proj_pts" (.int 0))
        else base
      let base := ROS_STAT_KEYS.foldl (fun acc stat =>
        if dHas p stat then dSet acc stat (dGet p stat (.int 0)) else acc) base
      some (.dict base)
  | _ => Option.none

/-- Embedding of `_summarize_ros_projections` (lines 838-898): lists
delegate to the rankings reducer; dict payloads keep season and
non-dict metadata and cap each position of a dict-valued
`projections` field at 30 for QB and 20 otherwise, falling back to
the rankings reducer when that field is missing or not a dict. -/
def summarizeRosProjections (ros_data : PyVal) : PyVal :=
  if !pyTruthy ros_data then
    .dict [("summary", .str "No ROS projections data available")]
  else pyTry (do
    match ros_data with
    | .list _ => return summarizeFantasyRankings ros_data
    | _ => do
        let season ← pyGetD ros_data "season" (.str "")
        let items ← pyItems ros_data
        let metadata := items.filter fun kv =>
          !(["projections", "season"].contains kv.1) && !isDict kv.2
        let projOk :=
          match items.lookup "projections" with
          | some w => isDict w
          | Option.none => false
        if projOk then do
          let projections ← pySub ros_data "projections"
          let pitems ← pyItems projections
          let summarized := pitems.foldl (fun acc kv =>
            match kv.2 with
            | .list players =>
                if players.isEmpty then acc
                else
                  let maxPlayers := if kv.1 = "QB" then 30 else 20
                  dSet acc kv.1
                    (.list ((players.take maxPlayers).filterMap (rosPlayerSummary kv.1)))
            | _ => acc)
            [("season", season), ("metadata", .dict metadata)]
          return .dict summarized
        else
          return summarizeFantasyRankings ros_data)
    (fun e => .dict [("summary",
      .str "ROS projections data available but could not be summarized"),
      ("error", .str e)])

/-- Embedding of `_summarize_players_data` (lines 900-933): a list
payload yields a count plus a 20-player sample; a payload with a
`players` member recurses on it (the fuel models the recursion
limit); anything else yields a format stand-in; raises are recovered
to the players stand-in with the error message. -/
def summarizePlayersDataF : Nat → PyVal → PyVal
  | 0, _ => .dict [("summary",
      .str "Players data available but could not be summarized"),
      ("error", .str "maximum recursion depth exceeded")]
  | Nat.succ fuel, players_data =>
    pyTry (do
      match players_data with
      | .list xs =>
          let sample := (xs.take 20).filterMap fun player =>
            match player with
            | .dict p => some (PyVal.dict [
                ("name", dGet p "display_name" (dGet p "name" (.str ""))),
                ("team", dGet p "team" (.str "")),
                ("position", dGet p "position" (.str "")),
                ("jersey_number", dGet p "jersey" (.str "")),
                ("status", dGet p "status" (.str ""))])
            | _ => Option.none
          return .dict [("players_count", .int xs.length),
            ("sample_players", .list sample)]
      | _ => do
          if (← pyIn "players" players_data) then do
            let pv ← pySub players_data "players"
            return summarizePlayersDataF fuel pv
          else
            return .dict [("summary",
              .str "Players data available but in unexpected format")])
      (fun e => .dict [("summary",
        .str "Players data available but could not be summarized"),
        ("error", .str e)])

/-- `_summarize_players_data` at Python's default recursion limit. -/
def summarizePlayersData (v : PyVal) : PyVal :=
  summarizePlayersDataF 1000 v

/-- Position lists built by the depth-chart reducer: for every key
with a list value (outside `excluded`), the names of the first 3
players (non-dict players are rendered with `str`). -/
def depthPositionsOf (team_kvs : List (String × PyVal)) (excluded : List String) :
    List (String × PyVal) :=
  team_kvs.foldl (fun acc kv =>
    if excluded.contains kv.1 then acc
    else match kv.2 with
      | .list players =>
          dSet acc kv.1 (.list ((players.take 3).map fun player =>
            match player with
            | .dict p => dGet p "name" (.str "")
            | _ => .str (pyStr player)))
      | _ => acc) []

/-- Embedding of `_summarize_depth_charts` (lines 935-1058): a list
payload keeps the first 5 dict teams (raising, inside the `try`, when
a team identifier is not a string, because the source lowercases it);
a dict payload distinguishes team-code keys, a `teams` or `charts`
wrapper (recursing), and a generic search that recurses on the first
eligible list-of-dicts value and otherwise collects dict values with
nonempty positions.  Raises are recovered to the depth stand-in with
the error message; the fuel models the recursion limit. -/
def summarizeDepthChartsF : Nat → PyVal → PyVal
  | 0, _ => .dict [("summary",
      .str "Depth chart data available but could not be summarized"),
      ("error", .str "maximum recursion depth exceeded")]
  | Nat.succ fuel, depth_data =>
    pyTry (do
      match depth_data with
      | .list xs => do
          let teams ← (xs.take 5).filterMapM fun team =>
            match team with
            | .dict t => do
                let tv := dGet t "team" (dGet t "name" (dGet t "alias" (.str "")))
                match tv with
                | .str _ => pure ()
                | _ => Except.error (attrErr (pyTypeName tv) "lower")
                return some (PyVal.dict [("team", tv),
                  ("positions", .dict (depthPositionsOf t ["team", "name", "alias", "id"]))])
            | _ => pure Option.none
          return .dict [("teams_count", .int xs.length), ("teams", .list teams)]
      | .dict kvs => do
          if kvs.any (fun kv => kv.1.length ≤ 3 && pyIsUpper kv.1) then
            let teams := kvs.foldl (fun acc kv =>
              match kv.2 with
              | .dict td => acc ++ [PyVal.dict [("team", .str kv.1),
                  ("positions", .dict (depthPositionsOf td []))]]
              | _ => acc) []
            return .dict [("teams_count", .int teams.length), ("teams", .list teams)]
          else if dHas kvs "teams" then
            return summarizeDepthChartsF fuel (dGet kvs "teams" .none)
          else if dHas kvs "charts" then
            return summarizeDepthChartsF fuel (dGet kvs "charts" .none)
          else
            let eligible := fun (kv : String × PyVal) =>
              (isList kv.2 || isDict kv.2) &&
              !(["metadata", "status", "error"].contains kv.1.toLower)
            let trigger := fun (kv : String × PyVal) =>
              eligible kv &&
              (match kv.2 with | .list (first :: _) => isDict first | _ => false)
            let (before, after) := kvs.span fun kv => !trigger kv
            let teams := before.foldl (fun acc kv =>
              if eligible kv then
                match kv.2 with
                | .dict td =>
                    let positions := depthPositionsOf td []
                    if positions.isEmpty then acc
                    else acc ++ [PyVal.dict [("team", .str kv.1),
                        ("positions", .dict positions)]]
                | _ => acc
              else acc) []
            match after with
            | kv :: _ => return summarizeDepthChartsF fuel kv.2
            | [] => return .dict [("teams_count", .int teams.length),
                ("teams", .list teams)]
      | _ =>
          return .dict [("summary",
            .str "Depth chart data available but in unexpected format"),
            ("debug_type", .str ("<class \x27" ++ pyTypeName depth_data ++ "\x27>"))])
      (fun e => .dict [("summary",
        .str "Depth chart data available but could not be summarized"),
        ("error", .str e)])

/-- `_summarize_depth_charts` at Python's default recursion limit. -/
def summarizeDepthCharts (v : PyVal) : PyVal :=
  summarizeDepthChartsF 1000 v

/-- Embedding of `_summarize_bye_weeks` (lines 1060-1087): a list
payload keeps week/teams of its dict entries; a dict recurses under a
`weeks` key or echoes the payload; raises are recovered to the bye
stand-in with the error message; the fuel models the recursion
limit. -/
def summarizeByeWeeksF : Nat → PyVal → PyVal
  | 0, _ => .dict [("summary",
      .str "Bye weeks data available but could not be summarized"),
      ("error", .str "maximum recursion depth exceeded")]
  | Nat.succ fuel, bye_data =>
    pyTry (do
      match bye_data with
      | .list xs =>
          return .dict [("bye_weeks", .list (xs.filterMap fun wd =>
            match wd with
            | .dict w => some (PyVal.dict [("week", dGet w "week" (.str "")),
                ("teams", dGet w "teams" (.list []))])
            | _ => Option.none))]
      | .dict kvs =>
          if dHas kvs "weeks" then
            return summarizeByeWeeksF fuel (dGet kvs "weeks" .none)
          else
            return .dict [("summary", .str "Bye weeks data available"),
              ("data", bye_data)]
      | _ =>
          return .dict [("summary",
            .str "Bye weeks data available but in unexpected format")])
      (fun e => .dict [("summary",
        .str "Bye weeks data available but could not be summarized"),
        ("error", .str e)])

/-- `_summarize_bye_weeks` at Python's default recursion limit. -/
def summarizeByeWeeks (v : PyVal) : PyVal :=
  summarizeByeWeeksF 1000 v

/-- Embedding of `_summarize_add_drops` (lines 1089-1124): the first
10 dict transactions split into adds and drops by their `type`
field. -/
def summarizeAddDrops (add_drops_data : PyVal) : PyVal :=
  pyTry (do
    match add_drops_data with
    | .list xs =>
        let entry := fun (t : List (String × PyVal)) => PyVal.dict [
          ("player", dGet t "player" (.str "")),
          ("team", dGet t "team" (.str "")),
          ("position", dGet t "position" (.str "")),
          ("percentage", dGet t "percentage" (.int 0))]
        let step := fun (acc : List PyVal × List PyVal) (tr : PyVal) =>
          match tr with
          | .dict t =>
              if pyEqb (dGet t "type" .none) (.str "add") then
                (acc.1 ++ [entry t], acc.2)
              else if pyEqb (dGet t "type" .none) (.str "drop") then
                (acc.1, acc.2 ++ [entry t])
              else acc
          | _ => acc
        let (adds, drops) := (xs.take 10).foldl step ([], [])
        return .dict [("total_transactions", .int xs.length),
          ("top_adds", .list adds), ("top_drops", .list drops)]
    | _ =>
        return .dict [("summary",
          .str "Add/drops data available but in unexpected format")])
    (fun e => .dict [("summary",
      .str "Add/drops data available but could not be summarized"),
      ("error", .str e)])

/-- Embedding of `_summarize_weather_data` (lines 1126-1152): the
first 5 dict games rendered as forecast records with an
`away @ home` label. -/
def summarizeWeatherData (weather_data : PyVal) : PyVal :=
  pyTry (do
    match weather_data with
    | .list xs =>
        let forecasts := (xs.take 5).filterMap fun game =>
          match game with
          | .dict g => some (PyVal.dict [
              ("game", .str (pyStr (dGet g "away_team" (.str "")) ++ " @ " ++
                pyStr (dGet g "home_team" (.str "")))),
              ("temperature", dGet g "temperature" (.str "")),
              ("conditions", dGet g "conditions" (.str "")),
              ("wind", dGet g "wind" (.str "")),
              ("precipitation", dGet g "precipitation" (.str ""))])
          | _ => Option.none
        return .dict [("games_count", .int xs.length),
          ("forecasts", .list forecasts)]
    | _ =>
        return .dict [("summary",
          .str "Weather data available but in unexpected format")])
    (fun e => .dict [("summary",
      .str "Weather data available but could not be summarized"),
      ("error", .str e)])

/-- Embedding of `_summarize_dfs_data` (lines 1154-1184): players
sorted stably by descending `value` (the sort key raising on non-dict
elements or incomparable keys, recovered by the `try`), top 10 kept. -/
def summarizeDfsData (dfs_data : PyVal) : PyVal :=
  pyTry (do
    match dfs_data with
    | .list xs => do
        let keyed ← xs.mapM fun x => do
          let k ← pyGetD x "value" (.int 0)
          pure (k, x)
        let sorted_ ← pySortVals keyed true
        let top := (sorted_.take 10).filterMap fun player =>
          match player with
          | .dict p => some (PyVal.dict [
              ("player", dGet p "name" (.str "")),
              ("team", dGet p "team" (.str "")),
              ("position", dGet p "position" (.str "")),
              ("salary", dGet p "salary" (.int 0)),
              ("projected_points", dGet p "projected_points" (.int 0)),
              ("value", dGet p "value" (.int 0))])
          | _ => Option.none
        return .dict [("players_count", .int xs.length),
          ("top_value_players", .list top)]
    | _ =>
        return .dict [("summary",
          .str "DFS data available but in unexpected format")])
    (fun e => .dict [("summary",
      .str "DFS data available but could not be summarized"),
      ("error", .str e)])

/-- Embedding of `_summarize_dfs_slates` (lines 1186-1211): every dict
slate rendered with id, name, start time and game count (`len` of its
`games` value, raising on unsized values, recovered by the `try`). -/
def summarizeDfsSlates (slates_data : PyVal) : PyVal :=
  pyTry (do
    match slates_data with
    | .list xs => do
        let slates ← xs.filterMapM fun slate =>
          match slate with
          | .dict s => do
              let gcount ← pyLen (dGet s "games" (.list []))
              return some (PyVal.dict [
                ("slate_id", dGet s "slate_id" (.str "")),
                ("name", dGet s "name" (.str "")),
                ("start_time", dGet s "start_time" (.str "")),
                ("games_count", .int gcount)])
          | _ => pure Option.none
        return .dict [("slates_count", .int xs.length),
          ("available_slates", .list slates)]
    | _ =>
        return .dict [("summary",
          .str "DFS slates data available but in unexpected format")])
    (fun e => .dict [("summary",
      .str "DFS slates data available but could not be summarized"),
      ("error", .str e)])

/-- Embedding of `_summarize_nfl_picks` (lines 1213-1238): every dict
game rendered with an `away @ home` label, spread, over/under and the
first 3 expert picks (slicing raising on unsliceable values,
recovered by the `try`). -/
def summarizeNflPicks (picks_data : PyVal) : PyVal :=
  pyTry (do
    match picks_data with
    | .list xs => do
        let picks ← xs.filterMapM fun game =>
          match game with
          | .dict g => do
              let ep ← pySlice (dGet g "expert_picks" (.list [])) 3
              return some (PyVal.dict [
                ("game", .str (pyStr (dGet g "away_team" (.str "")) ++ " @ " ++
                  pyStr (dGet g "home_team" (.str "")))),
                ("spread", dGet g "spread" (.str "")),
                ("over_under", dGet g "over_under" (.str "")),
                ("expert_picks", ep)])
          | _ => pure Option.none
        return .dict [("games_count", .int xs.length), ("picks", .list picks)]
    | _ =>
        return .dict [("summary",
          .str "NFL picks data available but in unexpected format")])
    (fun e => .dict [("summary",
      .str "NFL picks data available but could not be summarized"),
      ("error", .str e)])

/-- Per-player record of the draft-projections reducer (lines
1267-1294): rank from `enumerate(top_players, 1)` (counting skipped
non-dict entries too), plus position-specific projection stats. -/
def draftProjPlayer (position : String) (rank : Nat) (player : PyVal) : Option PyVal :=
  match player with
  | .dict p =>
      let base := [("rank", PyVal.int rank),
                   ("name", dGet p "name" (.str "")),
                   ("team", dGet p "team" (.str "")),
                   ("position", dGet p "position" (.str position)),
                   ("player_id", dGet p "playerId" (.str ""))]
      let base :=
        if position = "QB" then
          dSet base "projections" (.dict [
            ("passing_yards", dGet p "passing_yards" (.str "")),
            ("passing_touchdowns", dGet p "passing_touchdowns" (.str "")),
            ("rushing_yards", dGet p "rushing_yards" (.str "")),
            ("rushing_touchdowns", dGet p "rushing_touchdowns" (.str ""))])
        else if ["RB", "WR", "TE"].contains position then
          dSet base "projections" (.dict [
            ("rushing_yards", dGet p "rushing_yards" (.str "")),
            ("rushing_touchdowns", dGet p "rushing_touchdowns" (.str "")),
            ("receiving_yards", dGet p "receiving_yards" (.str "")),
            ("receiving_touchdowns", dGet p "receiving_touchdowns" (.str "")),
            ("receptions", dGet p "receptions" (.str ""))])
        else base
      some (.dict base)
  | _ => Option.none

/-- Embedding of `_summarize_draft_projections` (lines 1240-1308): a
payload with a `projections` member keeps season plus, per position
with a nonempty list value, the full count and the top 15 players;
otherwise it delegates to the rankings reducer; raises are recovered
to the projections stand-in with the error message. -/
def summarizeDraftProjections (projections_data : PyVal) : PyVal :=
  pyTry (do
    if !pyTruthy projections_data then
      return .dict [("summary", .str "No draft projections data available")]
    if (← pyIn "projections" projections_data) then do
      let projections ← pySub projections_data "projections"
      let season ← pyGetD projections_data "season" (.str "Unknown")
      let pitems ← pyItems projections
      let positions := pitems.foldl (fun acc kv =>
        match kv.2 with
        | .list players =>
            if players.isEmpty then acc
            else
              let top := players.take 15
              let summarized := (top.enumFrom 1).filterMap fun pr =>
                draftProjPlayer kv.1 pr.1 pr.2
              dSet acc kv.1 (.dict [("count", .int players.length),
                ("top_players", .list summarized)])
        | _ => acc) []
      return .dict [("season", season), ("positions", .dict positions)]
    else
      return summarizeFantasyRankings projections_data)
    (fun e => .dict [("summary",
      .str "Draft projections data available but could not be summarized"),
      ("error", .str e)])

/-- Whole-output stand-in of the dispatcher's single outer `except`
clause (`_summarize_context_data` lines 275-282). -/
def contextDataStandIn (e : String) : PyVal :=
  .dict [("summary", .str "Data available but could not be summarized due to an error"),
         ("error", .str e)]

/-- Embedding of `_summarize_context_data` (lines 139-282).  The
output starts from `query_type`/`metadata` (these two reads sit
before the `try`, so they raise — escaping the whole summarizer — on
a non-dict input); then every recognized category key present in the
input is dispatched, in source order, to its reducer inside ONE outer
`try`: an exception escaping any reducer is caught there and replaces
the ENTIRE summarized output with `contextDataStandIn`.  Keys not in
the dispatch table are never copied to the output. -/
def summarizeContextData (data : PyVal) : Except String PyVal := do
  let qt ← pyGetD data "query_type" (.str "unknown")
  let md ← pyGetD data "metadata" (.dict [])
  let kvs := match data with | .dict kvs => kvs | _ => []
  return pyTry (do
    let mut s : List (String × PyVal) := [("query_type", qt), ("metadata", md)]
    if dHas kvs "league" then
      let r ← summarizeLeagueStructure (dGet kvs "league" .none)
      s := dSet s "league_structure" r
    if dHas kvs "standings" then
      let r ← summarizeStandingsData (dGet kvs "standings" .none)
      s := dSet s "standings" r
    if dHas kvs "schedule" then
      s := dSet s "schedule" (summarizeScheduleData (dGet kvs "schedule" .none))
    if dHas kvs "team_profiles" then
      let profItems ← pyItems (dGet kvs "team_profiles" .none)
      let mut tp : List (String × PyVal) := []
      for kv in profItems do
        tp := dSet tp kv.1 (summarizeTeamProfile kv.2)
      s := dSet s "team_profiles" (.dict tp)
    if dHas kvs "injuries" then
      s := dSet s "injuries" (summarizeInjuryData (dGet kvs "injuries" .none))
    if dHas kvs "team_injuries" then
      let injItems ← pyItems (dGet kvs "team_injuries" .none)
      let mut ti : List (String × PyVal) := []
      for kv in injItems do
        let r ← summarizeTeamInjuries kv.2
        ti := dSet ti kv.1 r
      s := dSet s "team_injuries" (.dict ti)
    if dHas kvs "relevant_games" then
      s := dSet s "relevant_games" (summarizeGames (dGet kvs "relevant_games" .none))
    if dHas kvs "team_games" then
      let gameItems ← pyItems (dGet kvs "team_games" .none)
      let mut tg : List (String × PyVal) := []
      for kv in gameItems do
        tg := dSet tg kv.1 (summarizeGames kv.2)
      s := dSet s "team_games" (.dict tg)
    if dHas kvs "boxscore" then
      let r ← summarizeBoxscore (dGet kvs "boxscore" .none)
      s := dSet s "boxscore" r
    if dHas kvs "draft_rankings" then
      s := dSet s "draft_rankings" (summarizeFantasyRankings (dGet kvs "draft_rankings" .none))
    if dHas kvs "weekly_rankings" then
      s := dSet s "weekly_rankings" (summarizeFantasyRankings (dGet kvs "weekly_rankings" .none))
    if dHas kvs "ros_projections" then
      s := dSet s "ros_projections" (summarizeRosProjections (dGet kvs "ros_projections" .none))
    if dHas kvs "news" then
      s := dSet s "news" (summarizeNewsData (dGet kvs "news" .none))
    if dHas kvs "adp" then
      s := dSet s "adp" (summarizeFantasyRankings (dGet kvs "adp" .none))
    if dHas kvs "player_tiers" then
      s := dSet s "player_tiers" (summarizeFantasyRankings (dGet kvs "player_tiers" .none))
    if dHas kvs "auction_values" then
      s := dSet s "auction_values" (summarizeFantasyRankings (dGet kvs "auction_values" .none))
    if dHas kvs "best_ball" then
      s := dSet s "best_ball" (summarizeFantasyRankings (dGet kvs "best_ball" .none))
    if dHas kvs "dynasty" then
      s := dSet s "dynasty" (summarizeFantasyRankings (dGet kvs "dynasty" .none))
    if dHas kvs "fantasy_leaders" then
      s := dSet s "fantasy_leaders" (summarizeFantasyRankings (dGet kvs "fantasy_leaders" .none))
    if dHas kvs "players" then
      s := dSet s "players" (summarizePlayersData (dGet kvs "players" .none))
    if dHas kvs "depth" then
      s := dSet s "depth" (summarizeDepthCharts (dGet kvs "depth" .none))
    else if dHas kvs "depth_charts" then
      s := dSet s "depth" (summarizeDepthCharts (dGet kvs "depth_charts" .none))
    if dHas kvs "weekly_projections" then
      s := dSet s "weekly_projections" (summarizeFantasyRankings (dGet kvs "weekly_projections" .none))
    if dHas kvs "defense_rankings" then
      s := dSet s "defense_rankings" (summarizeFantasyRankings (dGet kvs "defense_rankings" .none))
    if dHas kvs "bye_weeks" then
      s := dSet s "bye_weeks" (summarizeByeWeeks (dGet kvs "bye_weeks" .none))
    if dHas kvs "add_drops" then
      s := dSet s "add_drops" (summarizeAddDrops (dGet kvs "add_drops" .none))
    if dHas kvs "weather" then
      s := dSet s "weather" (summarizeWeatherData (dGet kvs "weather" .none))
    if dHas kvs "draft_projections" then
      s := dSet s "draft_projections" (summarizeDraftProjections (dGet kvs "draft_projections" .none))
    if dHas kvs "dfs" then
      s := dSet s "dfs" (summarizeDfsData (dGet kvs "dfs" .none))
    if dHas kvs "dfs_slates" then
      s := dSet s "dfs_slates" (summarizeDfsSlates (dGet kvs "dfs_slates" .none))
    if dHas kvs "idp_draft" then
      s := dSet s "idp_draft" (summarizeFantasyRankings (dGet kvs "idp_draft" .none))
    if dHas kvs "idp_weekly" then
      s := dSet s "idp_weekly" (summarizeFantasyRankings (dGet kvs "idp_weekly" .none))
    if dHas kvs "nfl_picks" then
      s := dSet s "nfl_picks" (summarizeNflPicks (dGet kvs "nfl_picks" .none))
    return .dict s)
    contextDataStandIn

/-- Category keys recognized by the `_summarize_context_data`
dispatch table, plus the two passthrough keys it always copies. -/
def RECOGNIZED_CONTEXT_KEYS : List String :=
  ["query_type", "metadata", "league", "standings", "schedule",
   "team_profiles", "injuries", "team_injuries", "relevant_games",
   "team_games", "boxscore", "draft_rankings", "weekly_rankings",
   "ros_projections", "news", "adp", "player_tiers", "auction_values",
   "best_ball", "dynasty", "fantasy_leaders", "players", "depth",
   "depth_charts", "weekly_projections", "defense_rankings", "bye_weeks",
   "add_drops", "weather", "draft_projections", "dfs", "dfs_slates",
   "idp_draft", "idp_weekly", "nfl_picks"]

/-- Outcome of the OpenAI generation round trip attempted inside the
`try` of `generate_response` (lines 111-137): a generated text, an
`httpx.HTTPStatusError` with its status code and message, or any
other exception with its message. -/
inductive GenOutcome where
  | success (text : String)
  | statusError (code : Nat) (emsg : String)
  | exc (emsg : String)

/-- User-facing rate-limit text returned on status 429 (line 132). -/
def RATE_LIMIT_MSG : String := "Rate limit exceeded. Please try again later."

/-- User-facing degraded apology returned on every other generation
failure (lines 134 and 137). -/
def genApology (emsg : String) : String :=
  "Sorry, I couldn\x27t generate a response: " ++ emsg

/-- Embedding of the caching/generation skeleton of
`LLMService.generate_response` (lines 19-137), parameterized by the
SHA-256 hex digest `hash` and the generation outcome: computes the
fingerprint key, answers from the cache when a fresh entry exists,
otherwise performs the generation, stores a successful response under
the key (line 128) and converts failures to user-facing text without
raising and without touching the cache.  The message-assembly phase
(lines 44-109) does not affect the returned value or the cache and is
modelled separately by `truncateContextStr`. -/
def generateResponse (hash : String → String) (cache : LLMCache) (now : Int)
    (query : String) (context_data : PyVal) (outcome : GenOutcome) :
    String × LLMCache :=
  let cacheKey := hash (fingerprintInput query context_data)
  match cacheGet cache cacheKey now with
  | some cached => (cached, cache)
  | Option.none =>
      match outcome with
      | .success text => (text, cachePut cache cacheKey now text)
      | .statusError code emsg =>
          if code = 429 then (RATE_LIMIT_MSG, cache)
          else (genApology emsg, cache)
      | .exc emsg => (genApology emsg, cache)

/-- Shape check used by the standings claims: the value is a dict
carrying both a `standings` and a `message` key. -/
def hasStandingsShape : PyVal → Bool
  | .dict kvs => dHas kvs "standings" && dHas kvs "message"
  | _ => false

/-- Malformed-boxscore input used to refute claim C1: a two-category
context whose `boxscore` payload is a bare string (so
`_summarize_boxscore`, which has no internal handler, raises
`AttributeError` on `.get`) together with a well-formed `news`
payload. -/
def C1input : PyVal :=
  .dict [("boxscore", .str "bad"),
         ("news", .list [.dict [("article_headline", .str "Big trade")]])]

/-- Claim C1 (counterexample): on a multi-category input whose
`boxscore` reducer raises, `_summarize_context_data` does NOT replace
only the boxscore entry while keeping the `news` summary — its single
outer handler replaces the ENTIRE output with the whole-output
stand-in `{summary: "Data available but could not be summarized due
to an error", error: msg}`, which carries neither a `boxscore` nor a
`news` key, so the news summary is lost. -/
theorem C1_counterexample :
    summarizeContextData C1input = .ok (contextDataStandIn (attrErr "str" "get")) ∧
    contextDataStandIn (attrErr "str" "get") =
      .dict [("summary", .str "Data available but could not be summarized due to an error"),
             ("error", .str (attrErr "str" "get"))] :=
  ⟨rfl, rfl⟩

/-- Claim C1 (amended): a reducer exception that escapes the reducer
(here `_summarize_boxscore`, which has no internal `try`) is caught
by the summarizer's single outer handler, which replaces the ENTIRE
summarized output with the whole-output stand-in and discards every
other category's summary — for every malformed boxscore string and
every news payload.  (Reducers with their own internal handler
degrade only their own category instead.) -/
theorem C1_escapedReducerReplacesWholeOutput (s : String) (xs : List PyVal) :
    summarizeContextData (.dict [("boxscore", .str s), ("news", .list xs)])
      = .ok (contextDataStandIn (attrErr "str" "get")) := rfl

/-- Claim C2: serialized context strings longer than the 25,000
character ceiling are truncated to exactly the ceiling and the fixed
marker is appended — the result length is exactly ceiling plus marker
length and the marker is a suffix, so truncation is detectable —
while strings at or under the ceiling pass through unchanged. -/
theorem C2_sizeCeiling (s : String) :
    (s.length > CONTEXT_CEILING →
      (truncateContextStr s).length = CONTEXT_CEILING + TRUNCATION_MARKER.length ∧
      TRUNCATION_MARKER.data <:+ (truncateContextStr s).data) ∧
    (s.length ≤ CONTEXT_CEILING → truncateContextStr s = s) := by
  obtain ⟨data⟩ := s
  constructor
  · intro h
    simp only [truncateContextStr, if_pos h]
    constructor
    · show ((data.take CONTEXT_CEILING) ++ TRUNCATION_MARKER.data).length = _
      rw [List.length_append, List.length_take]
      have h1 : 25000 < data.length := h
      have h2 : TRUNCATION_MARKER.data.length = 39 := rfl
      have h3 : TRUNCATION_MARKER.length = 39 := rfl
      simp only [CONTEXT_CEILING, h2, h3]
      omega
    · show TRUNCATION_MARKER.data <:+ (data.take CONTEXT_CEILING ++ TRUNCATION_MARKER.data)
      exact List.suffix_append _ _
  · intro h
    show (if _ > _ then _ else _) = _
    exact if_neg (Nat.not_lt.mpr h)

/-- Oversized input for the C2 witness: 25,001 characters. -/
def C2bigInput : String := String.mk (List.replicate 25001 (Char.ofNat 97))

/-- Witness for C2 at concrete inputs: the 25,001-character string is
truncated to exactly ceiling-plus-marker length, and a short string
passes through unchanged. -/
theorem C2_sizeCeiling_witness :
    (truncateContextStr C2bigInput).length = CONTEXT_CEILING + TRUNCATION_MARKER.length ∧
    truncateContextStr "ok" = "ok" :=
  ⟨((C2_sizeCeiling C2bigInput).1
      (by show 25000 < (List.replicate 25001 (Char.ofNat 97)).length
          rw [List.length_replicate]
          omega)).1,
   (C2_sizeCeiling "ok").2 (by decide)⟩

/-- Claim C3: `batch_get` returns exactly one result per request in
input order (slot `i` is precisely `_safe_get` of request `i`, so it
is produced independently of every other slot), a fetch that raises
yields `(False, None, message)` in its own slot only, and a fetch
that succeeds yields `(True, value, None)`; `batch_get` is a total
function — it never raises. -/
theorem C3_batchIsolation (fetch : String → PyVal → Except String PyVal)
    (reqs : List (String × PyVal)) :
    (batchGet fetch reqs).length = reqs.length ∧
    (∀ i : Nat, (batchGet fetch reqs)[i]? = (reqs[i]?).map fun r => safeGet fetch r.1 r.2) ∧
    (∀ endpoint params e, fetch endpoint params = .error e →
      safeGet fetch endpoint params = (false, Option.none, some e)) ∧
    (∀ endpoint params v, fetch endpoint params = .ok v →
      safeGet fetch endpoint params = (true, some v, Option.none)) := by
  refine ⟨by simp [batchGet], fun i => by simp [batchGet], ?_, ?_⟩
  · intro endpoint params e h; simp [safeGet, h]
  · intro endpoint params v h; simp [safeGet, h]

/-- Fetch collaborator used by the C3 witness: fails on the `bad`
endpoint, succeeds elsewhere. -/
def C3fetch : String → PyVal → Except String PyVal :=
  fun endpoint _ => if endpoint = "bad" then .error "boom" else .ok (.str endpoint)

/-- Requests used by the C3 witness. -/
def C3reqs : List (String × PyVal) :=
  [("/nfl/teams", .dict []), ("bad", .dict []), ("/nfl/news", .dict [])]

/-- Witness for C3 at a concrete batch: three requests yield three
results, and the failing fetch yields the failed triple. -/
theorem C3_batchIsolation_witness :
    (batchGet C3fetch C3reqs).length = C3reqs.length ∧
    safeGet C3fetch "bad" (.dict []) = (false, Option.none, some "boom") :=
  ⟨(C3_batchIsolation C3fetch C3reqs).1,
   (C3_batchIsolation C3fetch C3reqs).2.2.1 "bad" (.dict []) "boom" rfl⟩

/-- First insertion order of the context used to refute claim C4. -/
def C4ctxAB : PyVal := .dict [("a", .int 1), ("b", .int 2)]

/-- Second insertion order of the same mapping. -/
def C4ctxBA : PyVal := .dict [("b", .int 2), ("a", .int 1)]

/-- Claim C4 (counterexample): two contexts equal as mappings but with
different key insertion order produce DIFFERENT pre-hash encodings
`query + str(context)` — the encoding is not canonical in the key
order, so identical (query, context) pairs (as mappings) do not
always yield identical fingerprints. -/
theorem C4_counterexample :
    dictEquivAsMap [("a", .int 1), ("b", .int 2)] [("b", .int 2), ("a", .int 1)] = true ∧
    fingerprintInput "q" C4ctxAB ≠ fingerprintInput "q" C4ctxBA := by
  constructor
  · rfl
  · decide

/-- Claim C4 (amended): the fingerprint is the SHA-256 digest of the
raw concatenation `query + str(context)`; for a FIXED context the
encoding is injective in the query (distinct queries give distinct
pre-hash encodings), and it is deterministic on concretely equal
contexts, but it performs no canonicalization: contexts equal as
mappings with different key insertion order yield different pre-hash
encodings (see the counterexample). -/
theorem C4_fingerprintEncoding :
    (∀ q1 q2 c, fingerprintInput q1 c = fingerprintInput q2 c → q1 = q2) ∧
    (∀ q c1 c2, c1 = c2 → fingerprintInput q c1 = fingerprintInput q c2) := by
  constructor
  · intro q1 q2 c h
    unfold fingerprintInput at h
    obtain ⟨d1⟩ := q1
    obtain ⟨d2⟩ := q2
    cases hps : pyStr c with
    | mk ds =>
        rw [hps] at h
        have h2 : d1 ++ ds = d2 ++ ds := congrArg String.data h
        exact congrArg String.mk (List.append_cancel_right h2)
  · intro q c1 c2 h
    rw [h]

/-- Witness for C4 (amended) at a concrete pair: applying the
query-injectivity direction at equal inputs. -/
theorem C4_fingerprintEncoding_witness : "who wins the AFC" = "who wins the AFC" :=
  C4_fingerprintEncoding.1 "who wins the AFC" "who wins the AFC" C4ctxAB rfl

/-- Claim C5: with the fixed 600-second TTL, a `put` followed by a
`get` of the same key strictly less than TTL after the entry's
creation returns the stored value; once TTL or more has elapsed the
entry reads as absent; and a later `put` overwrites it so a fresh
read returns the new value. -/
theorem C5_cacheTTL (c : LLMCache) (k v v2 : String) (t t2 now : Int) :
    (now - t < LLM_CACHE_TTL → cacheGet (cachePut c k t v) k now = some v) ∧
    (LLM_CACHE_TTL ≤ now - t → cacheGet (cachePut c k t v) k now = Option.none) ∧
    (now - t2 < LLM_CACHE_TTL →
      cacheGet (cachePut (cachePut c k t v) k t2 v2) k now = some v2) := by
  refine ⟨fun h => ?_, fun h => ?_, fun h => ?_⟩ <;>
    simp [cacheGet, cachePut, List.lookup, h]

/-- Witness for C5 at concrete times: a value stored at time 0 reads
back at 599, is absent at 600, and an overwrite at 600 reads back at
ить 1100. -/
theorem C5_cacheTTL_witness :
    cacheGet (cachePut [] "k" 0 "v") "k" 599 = some "v" ∧
    cacheGet (cachePut [] "k" 0 "v") "k" 600 = Option.none ∧
    cacheGet (cachePut (cachePut [] "k" 0 "v") "k" 600 "w") "k" 1100 = some "w" :=
  ⟨(C5_cacheTTL [] "k" "v" "w" 0 600 599).1 (by decide),
   (C5_cacheTTL [] "k" "v" "w" 0 600 600).2.1 (by decide),
   (C5_cacheTTL [] "k" "v" "w" 0 600 1100).2.2 (by decide)⟩

/-- Claim C6: for every enumerated upstream outcome — empty-list
payload, timeout, HTTP status error, or any other exception —
`get_standings` returns a well-formed dict carrying both a
`standings` and a `message` key instead of raising (it is a total
function), and the empty-list outcome yields exactly
`{"standings": {}, "message": "No standings data available"}`. -/
theorem C6_standingsNeverError (baseUrl : String) (u : Upstream)
    (h : u = .ok (.list []) ∨ u = .timeout ∨
         (∃ c m, u = .statusError c m) ∨ (∃ m, u = .exc m)) :
    hasStandingsShape (getStandings baseUrl u) = true ∧
    (u = .ok (.list []) → getStandings baseUrl u = standingsNoData) := by
  rcases h with rfl | rfl | ⟨c, m, rfl⟩ | ⟨m, rfl⟩
  · exact ⟨rfl, fun _ => rfl⟩
  · exact ⟨rfl, fun hh => by cases hh⟩
  · refine ⟨?_, fun hh => by cases hh⟩
    simp [getStandings, getData, hasStandingsShape, dHas, dGet, List.lookup]
  · exact ⟨rfl, fun hh => by cases hh⟩

/-- Witness for C6 at concrete outcomes: an upstream timeout still
produces the standings/message shape, and the empty-list payload
produces exactly the documented placeholder. -/
theorem C6_standingsNeverError_witness :
    hasStandingsShape (getStandings "http://api" Upstream.timeout) = true ∧
    getStandings "http://api" (.ok (.list [])) = standingsNoData :=
  ⟨(C6_standingsNeverError "http://api" .timeout (Or.inr (Or.inl rfl))).1,
   (C6_standingsNeverError "http://api" (.ok (.list []))
      (Or.inl rfl)).2 rfl⟩

/-- Position-keyed rankings payload on which claim C7 fails. -/
def C7failingInput : PyVal :=
  .dict [("QB", .list [.dict [("name", .str "Josh Allen"), ("rank", .int 1)]])]

/-- Claim C7 (code bug): on a position-keyed rankings object the
reducer BUILDS the capped per-position mapping (second conjunct shows
the value the source constructs, with the QB record summarized in
order) but the branch has no `return` statement, so
`_summarize_fantasy_rankings` falls off the end and returns `None`
instead of the bounded mapping the spec describes. -/
theorem C7_posKeyedRankingsReturnsNone :
    summarizeFantasyRankings C7failingInput = PyVal.none ∧
    posKeyedRankingsSummary
        [("QB", .list [.dict [("name", .str "Josh Allen"), ("rank", .int 1)]])]
      = .dict [("QB", .list [.dict [("name", .str "Josh Allen"),
          ("team", .str ""), ("rank", .int 1)]])] :=
  ⟨rfl, rfl⟩

/-- Claim C8 (counterexample): a category key unknown to the dispatch
table (`foobar`) is NOT passed through the generic fallback reducer —
it is silently dropped: the summarized output contains only the
`query_type`/`metadata` passthrough and no entry for the
unrecognized category. -/
theorem C8_counterexample :
    summarizeContextData
        (.dict [("query_type", .str "stats"), ("foobar", .list [.dict [("a", .int 1)]])])
      = .ok (.dict [("query_type", .str "stats"), ("metadata", .dict [])]) := rfl

set_option maxHeartbeats 2000000 in
/-- Claim C8 (amended): every category key outside the dispatch table
is omitted from the summarizer's output — the input's payload under
that key never appears, in any form; the generic fallback reducer
`_create_generic_summary` exists in the source with the described
bounded behavior but is never invoked. -/
theorem C8_unrecognizedKeysDropped (k : String) (v : PyVal)
    (h : k ∉ RECOGNIZED_CONTEXT_KEYS) :
    summarizeContextData (.dict [(k, v)])
      = .ok (.dict [("query_type", .str "unknown"), ("metadata", .dict [])]) := by
  have hl : ∀ key : String, key ∈ RECOGNIZED_CONTEXT_KEYS → dHas [(k, v)] key = false := by
    intro key hk
    have hne : key ≠ k := fun heq => h (heq ▸ hk)
    simp [dHas, List.lookup, beq_eq_false_iff_ne.mpr hne]
  have hg : ∀ (key : String) (d : PyVal), key ∈ RECOGNIZED_CONTEXT_KEYS →
      dGet [(k, v)] key d = d := by
    intro key d hk
    have hne : key ≠ k := fun heq => h (heq ▸ hk)
    simp [dGet, List.lookup, beq_eq_false_iff_ne.mpr hne]
  unfold summarizeContextData
  simp [pyGetD, pyTry, hl, hg, RECOGNIZED_CONTEXT_KEYS]
  rfl

/-- Witness for C8 (amended) at a concrete unrecognized key. -/
theorem C8_unrecognizedKeysDropped_witness :
    summarizeContextData (.dict [("foobar", .list [.dict [("a", .int 1)]])])
      = .ok (.dict [("query_type", .str "unknown"), ("metadata", .dict [])]) :=
  C8_unrecognizedKeysDropped "foobar" (.list [.dict [("a", .int 1)]]) (by decide)

/-- Claim C9: when the generation round trip is attempted (no fresh
cache entry) and fails, `generate_response` returns user-facing text
instead of raising — the exact rate-limit message on HTTP status 429,
and the degraded apology text on every other HTTP status error and on
every other exception; it is a total function. -/
theorem C9_generationFailureNotPropagated (hash : String → String)
    (cache : LLMCache) (now : Int) (query : String) (ctx : PyVal)
    (hmiss : cacheGet cache (hash (fingerprintInput query ctx)) now = Option.none) :
    (∀ emsg, generateResponse hash cache now query ctx (.statusError 429 emsg)
      = (RATE_LIMIT_MSG, cache)) ∧
    (∀ code emsg, code ≠ 429 →
      generateResponse hash cache now query ctx (.statusError code emsg)
        = (genApology emsg, cache)) ∧
    (∀ emsg, generateResponse hash cache now query ctx (.exc emsg)
      = (genApology emsg, cache)) := by
  refine ⟨fun emsg => by simp [generateResponse, hmiss],
    fun code emsg hc => ?_,
    fun emsg => by simp [generateResponse, hmiss]⟩
  simp [generateResponse, hmiss, hc]

/-- Witness for C9 on an empty cache: status 429 yields the rate-limit
text, status 503 and a plain exception yield the apology text. -/
theorem C9_generationFailureNotPropagated_witness :
    generateResponse id [] 0 "q" .none (.statusError 429 "x") = (RATE_LIMIT_MSG, []) ∧
    generateResponse id [] 0 "q" .none (.statusError 503 "oops") = (genApology "oops", []) ∧
    generateResponse id [] 0 "q" .none (.exc "boom") = (genApology "boom", []) :=
  ⟨(C9_generationFailureNotPropagated id [] 0 "q" .none rfl).1 "x",
   (C9_generationFailureNotPropagated id [] 0 "q" .none rfl).2.1 503 "oops" (by decide),
   (C9_generationFailureNotPropagated id [] 0 "q" .none rfl).2.2 "boom"⟩

/-- Claim C10: the response cache is written only on success — every
failing generation outcome (any HTTP status error including 429, and
any other exception) leaves the cache exactly unchanged, while a
successful generation on a cache miss stores the response under the
fingerprint key. -/
theorem C10_cacheOnlyOnSuccess (hash : String → String) (cache : LLMCache)
    (now : Int) (query : String) (ctx : PyVal) :
    (∀ code emsg,
      (generateResponse hash cache now query ctx (.statusError code emsg)).2 = cache) ∧
    (∀ emsg, (generateResponse hash cache now query ctx (.exc emsg)).2 = cache) ∧
    (∀ text, cacheGet cache (hash (fingerprintInput query ctx)) now = Option.none →
      generateResponse hash cache now query ctx (.success text)
        = (text, cachePut cache (hash (fingerprintInput query ctx)) now text)) := by
  refine ⟨fun code emsg => ?_, fun emsg => ?_, fun text h => by simp [generateResponse, h]⟩
  · rcases hq : cacheGet cache (hash (fingerprintInput query ctx)) now with _ | cached <;>
      simp [generateResponse, hq] <;> split <;> rfl
  · rcases hq : cacheGet cache (hash (fingerprintInput query ctx)) now with _ | cached <;>
      simp [generateResponse, hq]

/-- Witness for C10 on an empty cache: a failure leaves the cache
empty, a success stores exactly one entry under the fingerprint
key. -/
theorem C10_cacheOnlyOnSuccess_witness :
    (generateResponse id [] 0 "q" .none (.statusError 500 "err")).2 = [] ∧
    generateResponse id [] 0 "q" .none (.success "answer")
      = ("answer", cachePut [] (fingerprintInput "q" .none) 0 "answer") :=
  ⟨(C10_cacheOnlyOnSuccess id [] 0 "q" .none).1 500 "err",
   (C10_cacheOnlyOnSuccess id [] 0 "q" .none).2.2 "answer" rfl⟩
